import Mathlib

/-
Shallow embedding of the Rural Management Dashboard front-end
(src/client/src/App.jsx and the unnamed variant src/unnamed/part_000).

Every screen is a thin view over a remote HTTP API: a component issues a
fetch, stores the JSON response in local view state, and renders it.  The
embedding models each fetch site as a pair of pure state transformers:
a start step (what the component does when it issues the request) and a
completion step (the then/catch/finally handler chain applied to the
outcome of the request).  Outcomes are `Except Unit payload`: `.ok`
carries the parsed JSON payload (with `Option` for fields the handlers
guard with a JS `|| fallback`), `.error` is a transport failure or a
rejected json() parse.
-/

namespace RuralDash

/-- JS lookup `t[key]` on an object modelled as an association list:
`none` is the JS `undefined` of a missing key (property access on an
object never throws). -/
def lookupKey (m : List (String × String)) (k : String) : Option String :=
  List.lookup k m

/-- JS `v || fallback` on a string-or-undefined value: `undefined` and
the empty string are falsy, every other string is truthy. -/
def jsOrString (v : Option String) (fallback : String) : String :=
  match v with
  | some s => if s = "" then fallback else s
  | none => fallback

/-- JS `s.trim()`: strip leading and trailing whitespace, by structural
recursion on the character list so that concrete instances evaluate. -/
def jsTrim (s : String) : String :=
  ⟨((s.data.dropWhile Char.isWhitespace).reverse.dropWhile
      Char.isWhitespace).reverse⟩

/-- Translation lookup pattern used throughout both variants:
`t.key || fallback` (App.jsx line 23 onwards, with `t = translations || \x7b\x7d`)
and `translations.key || fallback` (part_000 line 179 onwards). -/
def getText (translations : List (String × String)) (key fallback : String) : String :=
  jsOrString (lookupKey translations key) fallback

/-! ### Education news panel (App.jsx `EducationNews.fetchNews`, lines 88-97) -/

/-- News article as consumed by the fetch handlers; the handler chain never
inspects the fields, it stores the list wholesale. -/
structure NewsArticle where
  title : String
  url : String
deriving DecidableEq

/-- Local view state of the news panel: `news` (useState []) and the
`loading` flag (useState true). -/
structure NewsState where
  news : List NewsArticle
  loading : Bool
deriving DecidableEq

/-- Request issue step of `fetchNews`: `setLoading(true)`; the stored
articles are not touched. -/
def fetchNewsStart (s : NewsState) : NewsState :=
  { s with loading := true }

/-- Completion step of `fetchNews` applied to the request outcome:
`.then(d => setNews(d.articles || [])).catch(() => setNews([])).finally(() => setLoading(false))`.
The `.ok` payload carries `d.articles` as an `Option` because the handler
guards it with `|| []`. -/
def fetchNewsComplete (outcome : Except Unit (Option (List NewsArticle)))
    (_s : NewsState) : NewsState :=
  match outcome with
  | Except.ok d => { news := d.getD [], loading := false }
  | Except.error _ => { news := [], loading := false }

/-! ### Market prices panel (App.jsx `MarketPrices`, lines 175-206) -/

/-- One entry of the market-prices payload (`d.prices`).  `change` is a
display value rendered verbatim in App.jsx; `trend` is the optional field
the badge colour keys on. -/
structure MarketPrice where
  name : String
  price : ℚ
  unit : String
  trend : Option String
  change : ℚ
deriving DecidableEq

/-- Local view state of the market-prices panel. -/
structure MarketPricesState where
  prices : List MarketPrice
  loading : Bool
deriving DecidableEq

/-- Request issue step of the `MarketPrices` effect: `setLoading(true)`. -/
def marketPricesStart (s : MarketPricesState) : MarketPricesState :=
  { s with loading := true }

/-- Completion step of the `MarketPrices` effect (App.jsx lines 182-185):
`.then(r => r.json()).then(d => setPrices(d.prices || [])).finally(() => setLoading(false))`.
There is no `.catch` in the source, so on a failed outcome the `then`
handler is skipped, `finally` still clears the loading flag, and the
rejection propagates unhandled: the second component of the result is
`true` exactly when an unhandled rejection escapes this fetch site. -/
def marketPricesComplete (outcome : Except Unit (Option (List MarketPrice)))
    (s : MarketPricesState) : MarketPricesState × Bool :=
  match outcome with
  | Except.ok d => ({ prices := d.getD [], loading := false }, false)
  | Except.error _ => ({ s with loading := false }, true)

/-! ### Hospitals panel (App.jsx `HospitalsList`, lines 406-446) -/

/-- Hospital entry as stored by the fetch handler (fields are opaque to
the handler chain). -/
structure Hospital where
  name : String
deriving DecidableEq

/-- Local view state of the hospitals panel. -/
structure HospitalsState where
  hospitals : List Hospital
  loading : Bool
deriving DecidableEq

/-- Completion step of the `HospitalsList` effect (App.jsx lines 413-416):
`.then(r => r.json()).then(d => setHospitals(d.hospitals || [])).finally(() => setLoading(false))`.
As in `MarketPrices`, no `.catch` exists: a failed outcome leaves the
stored list untouched and lets the rejection propagate (flag `true`). -/
def hospitalsComplete (outcome : Except Unit (Option (List Hospital)))
    (s : HospitalsState) : HospitalsState × Bool :=
  match outcome with
  | Except.ok d => ({ hospitals := d.getD [], loading := false }, false)
  | Except.error _ => ({ s with loading := false }, true)

/-! ### Chat session (App.jsx `ChatBot.sendMessage`, lines 611-630) -/

/-- Role of a chat turn. -/
inductive ChatRole where
  | user
  | assistant
deriving DecidableEq

/-- One turn of the chat transcript. -/
structure ChatMsg where
  role : ChatRole
  content : String
deriving DecidableEq

/-- Local view state of the chat panel: the transcript, the input box
value, and the pending flag (`loading`). -/
structure ChatState where
  messages : List ChatMsg
  input : String
  loading : Bool
deriving DecidableEq

/-- Synchronous part of `sendMessage` (App.jsx lines 611-616): guard
`if (!input.trim() || loading) return;`, then
`setInput(''); setMessages(m => [...m, roleUser userMsg]); setLoading(true)`
with `userMsg = input.trim()`.  The second component records whether a
request was issued. -/
def sendMessagePhase1 (s : ChatState) : ChatState × Bool :=
  if (jsTrim s.input) = "" ∨ s.loading = true then (s, false)
  else ({ messages := s.messages ++ [⟨ChatRole.user, (jsTrim s.input)⟩],
          input := "", loading := true }, true)

/-- Assistant turn appended on completion: the backend response on
success, the hard-coded error text of the catch block on failure
(App.jsx lines 625-627). -/
def chatReplyTurn (outcome : Except Unit String) : ChatMsg :=
  match outcome with
  | Except.ok resp => ⟨ChatRole.assistant, resp⟩
  | Except.error _ => ⟨ChatRole.assistant, "Error connecting to server"⟩

/-- Completion part of `sendMessage` (App.jsx lines 618-629): on success
append the assistant turn, on failure append the error turn; either way
`setLoading(false)`.  The already-appended user turn is untouched. -/
def sendMessagePhase2 (outcome : Except Unit String) (s : ChatState) : ChatState :=
  { s with messages := s.messages ++ [chatReplyTurn outcome], loading := false }

/-! ### Hierarchical location selector
(part_000 `LocationSelector.handleStateChange`, lines 130-137) -/

/-- State/city pair held by the variant of part_000 (useState on lines
8-9). -/
structure LocationState where
  state : String
  city : String
deriving DecidableEq

/-- `Object.keys(locations[newState] || \x7b\x7d)`: the city list of a state,
empty when the state is missing from the locations map. -/
def cityOptions (locations : List (String × List String)) (st : String) : List String :=
  (List.lookup st locations).getD []

/-- `handleStateChange` (part_000 lines 130-137): `setState(newState)`;
then `if (cities.length > 0 && city !== cities[0]) setCity(cities[0])` -
the city is replaced by the first option whenever the new list is
non-empty and the current city differs from that first option, and kept
otherwise. -/
def handleStateChange (locations : List (String × List String)) (newState : String)
    (s : LocationState) : LocationState :=
  let cities := cityOptions locations newState
  { state := newState,
    city :=
      match cities with
      | [] => s.city
      | c :: _ => if s.city = c then s.city else c }

/-! ### Symptom checker (App.jsx `SymptomChecker`, lines 531-581) -/

/-- Single-shot result payload of the symptom-checker endpoint. -/
structure SymptomResult where
  success : Bool
  response : String
deriving DecidableEq

/-- Local view state of the symptom checker: the textarea value, the
stored result, and the pending flag. -/
structure SymptomState where
  symptoms : String
  result : Option SymptomResult
  loading : Bool
deriving DecidableEq

/-- Synchronous part of `checkSymptoms` (App.jsx lines 537-539): guard
`if (!symptoms.trim()) return;` then `setLoading(true)`.  The second
component records whether a request was issued.  Note the function body
itself guards only against blank input. -/
def checkSymptoms (s : SymptomState) : SymptomState × Bool :=
  if (jsTrim s.symptoms) = "" then (s, false)
  else ({ s with loading := true }, true)

/-- The submit button's `disabled` attribute (App.jsx line 567):
`disabled=loading or not symptoms.trim()`.  This is where the
while-pending guard of the symptom checker lives. -/
def checkButtonDisabled (s : SymptomState) : Bool :=
  s.loading || ((jsTrim s.symptoms) == "")

/-- Submission through the UI: a click on a disabled button does nothing,
otherwise `checkSymptoms` runs. -/
def checkSymptomsClick (s : SymptomState) : SymptomState × Bool :=
  if checkButtonDisabled s then (s, false) else checkSymptoms s

/-! ### Price rendering helpers -/

/-- Badge class of a market-prices entry in App.jsx (line 198): keyed on
the `trend` field, not on the sign of `change`; an absent or unrecognised
trend falls through to the neutral slate class. -/
def trendBadgeClass (trend : Option String) : String :=
  if trend = some "up" then "bg-green-500/20 text-green-400"
  else if trend = some "down" then "bg-red-500/20 text-red-400"
  else "bg-slate-600 text-slate-300"

/-- Unit suffix of a market-prices entry in App.jsx (line 200):
`t[per_unit] || '/' + p.unit` - the slash-prefixed unit when no
translation overrides it. -/
def unitSuffix (t : List (String × String)) (unit : String) : String :=
  jsOrString (lookupKey t ("per_" ++ unit)) ("/" ++ unit)

/-- `getChangeColor` of part_000 (lines 95-99): green for a positive
change, red for a negative one, gray otherwise. -/
def getChangeColor (change : ℚ) : String :=
  if 0 < change then "text-green-600"
  else if change < 0 then "text-red-600"
  else "text-gray-500"

/-- Change arrow of part_000 (line 273): up, down or flat by the sign of
`change`. -/
def changeArrow (change : ℚ) : String :=
  if 0 < change then "↑"
  else if change < 0 then "↓"
  else "→"

/-- Unit chip of part_000 (lines 268-270): the raw `item.unit` string,
with no slash prepended. -/
def unitChip (unit : String) : String := unit

/-! ## Theorems -/

/-- C1 (counterexample): the claim says the stored payload is replaced
only on the success outcome, never on the error outcome.  On the news
panel whose state holds one article, a request that fails replaces the
stored articles with the empty list (the catch handler is
`setNews([])`), so the payload is replaced on the error outcome. -/
theorem news_error_replaces_data_cex :
    (fetchNewsComplete (Except.error ())
        (fetchNewsStart ⟨[⟨"Old headline", "u"⟩], false⟩)).news
      ≠ [⟨"Old headline", "u"⟩] := by
  decide

/-- C1 (amended): per request the loading flag is set at issue and
cleared exactly once at completion; issuing does not clear the stale
articles; completion replaces the stored payload on BOTH outcomes -
with the parsed articles (or [] when the field is absent) on success and
with the empty list on error. -/
theorem news_fetch_lifecycle (s : NewsState)
    (outcome : Except Unit (Option (List NewsArticle))) :
    (fetchNewsStart s).loading = true ∧
    (fetchNewsStart s).news = s.news ∧
    (fetchNewsComplete outcome (fetchNewsStart s)).loading = false ∧
    (fetchNewsComplete outcome (fetchNewsStart s)).news =
      (match outcome with
       | Except.ok d => d.getD []
       | Except.error _ => []) := by
  refine ⟨rfl, rfl, ?_, ?_⟩ <;> cases outcome <;> rfl

/-- C2 (counterexample): the claim says every fetch site catches network
failure and never lets an unhandled promise rejection propagate.  The
market-prices fetch site (App.jsx lines 182-185) has no catch handler:
on a transport failure the rejection propagates unhandled (flag true),
and the panel state carries no error field or retry control at all. -/
theorem marketPrices_unhandled_rejection_cex :
    (marketPricesComplete (Except.error ()) ⟨[], true⟩).2 = true := rfl

/-- C2 (amended): the news fetch site catches a transport failure and
degrades to the empty list, but the market-prices and hospitals fetch
sites attach no catch handler: on a transport failure the rejection
propagates unhandled, the stored data is retained unchanged, and only
the finally clause clears the loading flag; no error state or retry
control exists for those panels. -/
theorem fetch_error_handling_split (sm : MarketPricesState)
    (sh : HospitalsState) (sn : NewsState) :
    (marketPricesComplete (Except.error ()) sm).2 = true ∧
    (marketPricesComplete (Except.error ()) sm).1.prices = sm.prices ∧
    (marketPricesComplete (Except.error ()) sm).1.loading = false ∧
    (hospitalsComplete (Except.error ()) sh).2 = true ∧
    (hospitalsComplete (Except.error ()) sh).1.hospitals = sh.hospitals ∧
    (hospitalsComplete (Except.error ()) sh).1.loading = false ∧
    (fetchNewsComplete (Except.error ()) sn).news = [] :=
  ⟨rfl, rfl, rfl, rfl, rfl, rfl, rfl⟩

/-- C3: two overlapping requests on the news resource are both issued and
neither is cancelled; each completion handler overwrites the stored
payload when it arrives, so the final state equals the payload of
whichever request completes last, in either completion order
(last-completion-wins, not last-issued-wins).  With first-issued payload
p1 and second-issued payload p2: completion order (p1 then p2) ends at
p2, completion order (p2 then p1) ends at p1, and in each order the
intermediate state shows the earlier completion was applied, not
discarded. -/
theorem news_last_completion_wins (s : NewsState) (p1 p2 : List NewsArticle) :
    (fetchNewsComplete (Except.ok (some p1))
        (fetchNewsStart (fetchNewsStart s))).news = p1 ∧
    (fetchNewsComplete (Except.ok (some p2))
        (fetchNewsComplete (Except.ok (some p1))
          (fetchNewsStart (fetchNewsStart s)))).news = p2 ∧
    (fetchNewsComplete (Except.ok (some p2))
        (fetchNewsStart (fetchNewsStart s))).news = p2 ∧
    (fetchNewsComplete (Except.ok (some p1))
        (fetchNewsComplete (Except.ok (some p2))
          (fetchNewsStart (fetchNewsStart s)))).news = p1 :=
  ⟨rfl, rfl, rfl, rfl⟩

/-- C4: for every translation map, key and caller-supplied fallback, the
lookup pattern `t.key || fallback` is a total String function (never the
JS undefined) and returns either the backend-provided string for that
key or the supplied fallback; a missing key selects the fallback rather
than raising an error. -/
theorem getText_never_undefined (tr : List (String × String)) (key fb : String) :
    getText tr key fb = fb ∨
      ∃ s, lookupKey tr key = some s ∧ getText tr key fb = s := by
  unfold getText jsOrString
  cases h : lookupKey tr key with
  | none => exact Or.inl rfl
  | some s =>
    by_cases hs : s = ""
    · exact Or.inl (by simp [hs])
    · exact Or.inr ⟨s, rfl, by simp [hs]⟩

/-- C5: calling sendMessage with blank (whitespace-only) input or while a
prior send is pending is a no-op: the state (hence the transcript
length) is unchanged and no request is issued. -/
theorem sendMessage_noop_blank_or_pending (s : ChatState)
    (h : (jsTrim s.input) = "" ∨ s.loading = true) :
    sendMessagePhase1 s = (s, false) := by
  unfold sendMessagePhase1
  exact if_pos h

/-- C5 witness: concrete no-op on whitespace-only input. -/
theorem sendMessage_noop_witness :
    sendMessagePhase1 ⟨[⟨ChatRole.assistant, "Hello"⟩], "   ", false⟩
      = (⟨[⟨ChatRole.assistant, "Hello"⟩], "   ", false⟩, false) :=
  sendMessage_noop_blank_or_pending _ (Or.inl (by decide))

/-- C6: when a send actually happens (non-blank input, no send pending),
the user turn is appended immediately and the prior transcript is kept
as-is in order; on completion the transcript is exactly the old
transcript plus the user turn plus one assistant turn - the backend
reply on success, the error turn on failure - so the user turn is never
rolled back and the transcript is append-only. -/
theorem chat_transcript_append (s : ChatState) (outcome : Except Unit String)
    (h1 : (jsTrim s.input) ≠ "") (h2 : s.loading = false) :
    (sendMessagePhase1 s).1.messages
      = s.messages ++ [⟨ChatRole.user, (jsTrim s.input)⟩] ∧
    (sendMessagePhase2 outcome (sendMessagePhase1 s).1).messages
      = s.messages ++ [⟨ChatRole.user, (jsTrim s.input)⟩, chatReplyTurn outcome] := by
  have hcond : ¬ ((jsTrim s.input) = "" ∨ s.loading = true) := by
    simp [h1, h2]
  constructor
  · simp [sendMessagePhase1, if_neg hcond]
  · simp [sendMessagePhase1, sendMessagePhase2, if_neg hcond]

/-- C6 witness: concrete failed send preserving the user turn and
appending the assistant-role error turn. -/
theorem chat_transcript_append_witness :
    (sendMessagePhase2 (Except.error ())
        (sendMessagePhase1 ⟨[], "hello", false⟩).1).messages
      = [⟨ChatRole.user, "hello"⟩,
         ⟨ChatRole.assistant, "Error connecting to server"⟩] := by
  have h := (chat_transcript_append ⟨[], "hello", false⟩ (Except.error ())
    (by decide) rfl).2
  rw [h]
  decide

/-- C7: on a state change, when the new state's city list is the
non-empty list c :: cs and the currently selected city is absent from
it, the selected city becomes the first element of the new list - never
blank, never the stale value. -/
theorem handleStateChange_absent_city (locations : List (String × List String))
    (newState : String) (s : LocationState) (c : String) (cs : List String)
    (h : cityOptions locations newState = c :: cs)
    (hab : s.city ∉ c :: cs) :
    (handleStateChange locations newState s).city = c ∧
    (handleStateChange locations newState s).city ≠ s.city := by
  have hne : s.city ≠ c := fun he => hab (he ▸ List.mem_cons_self c cs)
  refine ⟨?_, ?_⟩ <;> simp [handleStateChange, h, hne]
  exact fun he => hne he.symm

/-- C7 witness: changing to Telangana while the stale city Vijayawada is
absent from its list selects Hyderabad, the first entry. -/
theorem handleStateChange_absent_city_witness :
    (handleStateChange [("Telangana", ["Hyderabad", "Warangal"])] "Telangana"
        ⟨"Andhra Pradesh", "Vijayawada"⟩).city = "Hyderabad" :=
  (handleStateChange_absent_city _ _ _ "Hyderabad" ["Warangal"]
    (by decide) (by decide)).1

/-- C8: submission of the symptom checker goes through the submit button,
whose disabled attribute is `loading or not symptoms.trim()`; with blank
(whitespace-only) input or while a prior check is pending a click is a
no-op: the state (hence the stored result) is unchanged and no request
is issued. -/
theorem symptom_submit_disallowed (s : SymptomState)
    (h : s.loading = true ∨ (jsTrim s.symptoms) = "") :
    checkSymptomsClick s = (s, false) := by
  have hd : checkButtonDisabled s = true := by
    rcases h with h | h
    · simp [checkButtonDisabled, h]
    · simp [checkButtonDisabled, h]
  simp [checkSymptomsClick, hd]

/-- C8 witness: concrete no-op on whitespace-only symptoms input with a
stored prior result. -/
theorem symptom_submit_disallowed_witness :
    checkSymptomsClick ⟨"   ", some ⟨true, "rest"⟩, false⟩
      = (⟨"   ", some ⟨true, "rest"⟩, false⟩, false) :=
  symptom_submit_disallowed _ (Or.inr (by decide))

/-- C9 (counterexample): the claim says the entry with price 42, change
-3.2 and unit kg renders a downward indicator and the suffix /kg.  In
the part_000 variant that entry does get the down arrow, but its unit
renders as the raw string kg with no slash; in the App.jsx variant the
unit suffix is /kg, but the badge colour keys on the trend field, so the
entry as given (no trend field) gets the neutral slate class, not the
red down styling. -/
theorem price_render_cex :
    unitChip "kg" ≠ "/kg" ∧
    trendBadgeClass none = "bg-slate-600 text-slate-300" ∧
    "bg-slate-600 text-slate-300" ≠ "bg-red-500/20 text-red-400" := by
  refine ⟨by decide, by decide, by decide⟩

/-- C9 (amended): for the entry with price 42, change -3.2 and unit kg:
in part_000 the negative change renders the down arrow and the red
change colour while the unit chip renders as kg without a slash; in
App.jsx the suffix /kg is rendered (when no per_kg translation exists)
and the red down badge appears exactly when the entry also carries
trend = down. -/
theorem price_render_amended :
    changeArrow (-3.2 : ℚ) = "↓" ∧
    getChangeColor (-3.2 : ℚ) = "text-red-600" ∧
    unitChip "kg" = "kg" ∧
    unitSuffix [] "kg" = "/kg" ∧
    trendBadgeClass (some "down") = "bg-red-500/20 text-red-400" := by
  have hneg : (-3.2 : ℚ) < 0 := by norm_num
  have hpos : ¬ (0 : ℚ) < -3.2 := by norm_num
  refine ⟨?_, ?_, by decide, by decide, by decide⟩
  · simp [changeArrow, hneg, hpos]
  · simp [getChangeColor, hneg, hpos]

/-- C10: the reset condition of handleStateChange compares only against
the first entry of the new list, not membership: when the new state's
city list is c :: cs, the current city is a valid member of the list but
differs from c, the city is still reset to c - the valid prior
selection is not preserved across state changes. -/
theorem handleStateChange_resets_valid_member
    (locations : List (String × List String)) (newState : String)
    (s : LocationState) (c : String) (cs : List String)
    (h : cityOptions locations newState = c :: cs)
    (_hmem : s.city ∈ c :: cs) (hne : s.city ≠ c) :
    (handleStateChange locations newState s).city = c := by
  simp [handleStateChange, h, hne]

/-- C10 witness: changing to Telangana while the selected city Warangal
is a valid member of its list still resets the city to Hyderabad, the
first entry. -/
theorem handleStateChange_resets_valid_member_witness :
    (handleStateChange [("Telangana", ["Hyderabad", "Warangal"])] "Telangana"
        ⟨"Andhra Pradesh", "Warangal"⟩).city = "Hyderabad" :=
  handleStateChange_resets_valid_member _ _ _ "Hyderabad" ["Warangal"]
    (by decide) (by decide) (by decide)

end RuralDash
